import Mathlib

/-!
# Verification of the generic HTTP client of react-vite-base-app

Shallow embedding of `src/services/api.ts` (the `ApiService` client: URL
resolution, header merging, the three interceptor chains, HTTP-error
construction, the catch-wrapper) and of `src/config/env.ts`
(`getNumberEnvVar`).  JavaScript dynamic values are modelled by the
inductive type `JsValue`; JavaScript truthiness by `jsTruthy`; a thrown
JavaScript value by `Thrown`.  Browser state touched by the default
interceptors (`localStorage`, `window.location.href`, `console.error`) is
modelled by the record `Store`.
-/

namespace ApiSpec

/-- A JavaScript runtime value, as far as the client manipulates them:
`undefined`, `null`, booleans, (integer) numbers, strings and plain
objects given as association lists of own properties. -/
inductive JsValue where
  | undefined : JsValue
  | null : JsValue
  | bool : Bool → JsValue
  | num : Int → JsValue
  | str : String → JsValue
  | obj : List (String × JsValue) → JsValue

/-- JavaScript truthiness: `undefined`, `null`, `false`, `0` and `""` are
falsy; every object (even `{}`) is truthy. -/
def jsTruthy : JsValue → Bool
  | .undefined => false
  | .null => false
  | .bool b => b
  | .num n => n != 0
  | .str s => s != ""
  | .obj _ => true

/-- First binding of a key in an association list (JavaScript objects have
unique keys, so first = only). -/
def lookupKey (fields : List (String × JsValue)) (k : String) : Option JsValue :=
  match fields with
  | [] => none
  | (k', v) :: rest => if k' = k then some v else lookupKey rest k

/-- Whether `k in v` holds, i.e. `v` is an object owning key `k`. -/
def hasKey (v : JsValue) (k : String) : Bool :=
  match v with
  | .obj fields => (lookupKey fields k).isSome
  | _ => false

/-! ## URL resolution (`ApiService.buildUrl`) -/

/-- `s.replace(/^\//, '')`: removes at most one leading `'/'`. -/
def lstripSlash1 : List Char → List Char
  | [] => []
  | c :: rest => if c = '/' then rest else c :: rest

/-- `s.replace(/\/$/, '')`: removes at most one trailing `'/'`. -/
def rstripSlash1 (l : List Char) : List Char :=
  (lstripSlash1 l.reverse).reverse

/-- Removes every leading `'/'` (used only to state the spec's
"exactly one separating slash" claim). -/
def lstripSlashAll : List Char → List Char
  | [] => []
  | c :: rest => if c = '/' then lstripSlashAll rest else c :: rest

/-- Removes every trailing `'/'` (used only to state the spec's claim). -/
def rstripSlashAll (l : List Char) : List Char :=
  (lstripSlashAll l.reverse).reverse

/-- Whether a character list begins with two slashes. -/
def startsTwoSlash : List Char → Bool
  | c :: c' :: _ => c = '/' && c' = '/'
  | _ => false

/-- Whether a character list ends with two slashes. -/
def endsTwoSlash (l : List Char) : Bool :=
  startsTwoSlash l.reverse

/-- `url.startsWith('http')`. -/
def startsWithHttp (url : String) : Bool :=
  url.data.take 4 = ['h', 't', 't', 'p']

/-- `baseURL || this.config.baseURL`: the per-call override when truthy
(so an empty override falls back to the client default). -/
def effectiveBase (configBase : String) (baseURL : Option String) : String :=
  match baseURL with
  | some b => if b = "" then configBase else b
  | none => configBase

/-- `ApiService.buildUrl` (api.ts lines 110–114): a path already starting
with `"http"` is returned verbatim; otherwise one trailing slash of the
effective base and one leading slash of the path are stripped before
joining with `'/'`. -/
def buildUrl (configBase : String) (url : String) (baseURL : Option String) : String :=
  if startsWithHttp url then url
  else ⟨rstripSlash1 (effectiveBase configBase baseURL).data ++
          '/' :: lstripSlash1 url.data⟩

/-- The spec's reading of URL resolution: ALL leading/trailing slashes are
normalised away, leaving exactly one separator ("regardless of
leading/trailing slashes on either side"). -/
def buildUrlSpec (configBase : String) (url : String) (baseURL : Option String) : String :=
  if startsWithHttp url then url
  else ⟨rstripSlashAll (effectiveBase configBase baseURL).data ++
          '/' :: lstripSlashAll url.data⟩

/-! ## The client's data model -/

/-- `ApiClientError` (api.ts lines 35–52).  `message`, `code` and
`details` keep the dynamic (`JsValue`) type of the arguments the source
passes to the constructor; `status` is the numeric status. -/
structure ApiClientError where
  message : JsValue
  status : Nat
  code : JsValue
  details : JsValue

/-- A thrown JavaScript value, split by the only test the client performs
on it (`error instanceof ApiClientError`): an `ApiClientError`, a native
`Error` (e.g. `TypeError`, `DOMException` from an abort) carrying a
message, or any other value. -/
inductive Thrown where
  | api : ApiClientError → Thrown
  | jsError : String → Thrown
  | value : JsValue → Thrown

/-- Browser state the default interceptors touch: `localStorage`,
`window.location.href`, and the `console.error` log. -/
structure Store where
  localStorage : List (String × String)
  href : String
  errorLog : List ApiClientError

/-- `localStorage.getItem`: the stored string, or `null` (here `none`)
when absent. -/
def storeGet (ls : List (String × String)) (k : String) : Option String :=
  match ls with
  | [] => none
  | (k', v) :: rest => if k' = k then some v else storeGet rest k

/-- `localStorage.removeItem`: drops every binding of the key (keys are
unique in `localStorage`, so this is the one item). -/
def storeRemove : List (String × String) → String → List (String × String)
  | [], _ => []
  | (k', v) :: rest, k =>
    if k' = k then storeRemove rest k else (k', v) :: storeRemove rest k

/-- `RequestConfig` (api.ts lines 21–24): the `RequestInit` fields the
client reads, plus the per-call `timeout` and `baseURL` overrides. -/
structure RequestConfig where
  method : Option String := none
  headers : List (String × String) := []
  body : Option String := none
  timeout : Option Nat := none
  baseURL : Option String := none

/-- The object spread `{ ...a, ...b }` on string maps: keys of `a` in
order with `b`'s value winning on collision, then `b`'s new keys. -/
def spreadHeaders (a b : List (String × String)) : List (String × String) :=
  a.map (fun p => (p.1, ((storeGet b p.1).getD p.2))) ++
    b.filter (fun p => storeGet a p.1 = none)

/-- `ApiConfig` (api.ts lines 6–10). -/
structure ApiConfig where
  baseURL : String
  timeout : Nat
  headers : List (String × String)

/-- The `defaultConfig` headers (api.ts lines 12–18). -/
def defaultHeaders : List (String × String) :=
  [("Content-Type", "application/json")]

/-! ## Interceptor chains -/

/-- A request interceptor: may read/write browser state, and either
returns the next config or throws. -/
structure ReqInterceptor where
  run : Store → RequestConfig → Store × Except Thrown RequestConfig

/-- A response interceptor: transforms the decoded payload or throws. -/
structure RespInterceptor where
  run : JsValue → Except Thrown JsValue

/-- An error interceptor: may read/write browser state; `none` means it
returned normally, `some t` means it threw `t`. -/
structure ErrInterceptor where
  run : ApiClientError → Store → Store × Option Thrown

/-- `ApiService.applyRequestInterceptors` (api.ts lines 85–93): fold the
registered interceptors left to right over the config, stopping at the
first throw (an `await`ed rejection). -/
def applyRequestInterceptors (its : List ReqInterceptor) (s : Store)
    (config : RequestConfig) : Store × Except Thrown RequestConfig :=
  match its with
  | [] => (s, .ok config)
  | i :: rest =>
    match i.run s config with
    | (s', .ok c') => applyRequestInterceptors rest s' c'
    | (s', .error t) => (s', .error t)

/-- `ApiService.applyResponseInterceptors` (api.ts lines 95–101). -/
def applyResponseInterceptors (its : List RespInterceptor)
    (response : JsValue) : Except Thrown JsValue :=
  match its with
  | [] => .ok response
  | i :: rest =>
    match i.run response with
    | .ok r' => applyResponseInterceptors rest r'
    | .error t => .error t

/-- `ApiService.applyErrorInterceptors` (api.ts lines 103–108): run each
interceptor in order; an interceptor that throws (as the `Promise<never>`
type demands) ends the loop with its exception, and if every interceptor
returns normally the original error is re-thrown at the end. -/
def applyErrorInterceptors (its : List ErrInterceptor)
    (error : ApiClientError) (s : Store) : Store × Thrown :=
  match its with
  | [] => (s, .api error)
  | i :: rest =>
    match i.run error s with
    | (s', some t) => (s', t)
    | (s', none) => applyErrorInterceptors rest error s'

/-! ## Error construction -/

/-- Modelled from the spec: `getErrorMessage` lives in `src/utils`, whose
implementation file is absent from the sources (only its unit tests
remain); per the tests, an `Error` yields its `message`, a string yields
itself, and any other value yields the fixed fallback string. -/
def getErrorMessage (t : Thrown) : String :=
  match t with
  | .api e => match e.message with | .str s => s | _ => "An unknown error occurred"
  | .jsError m => m
  | .value v => match v with | .str s => s | _ => "An unknown error occurred"

/-- `HTTP ${response.status}: ${response.statusText}`. -/
def httpGenericMessage (status : Nat) (statusText : String) : String :=
  "HTTP " ++ toString status ++ ": " ++ statusText

/-- Property access `v[k]`: JavaScript throws a `TypeError` when the
receiver is `null` or `undefined`; on any other receiver (an object, or a
boxed primitive) it yields the own property's value when present and
`undefined` otherwise. -/
def getField : JsValue → String → Except Thrown JsValue
  | .null, k =>
    .error (.jsError ("Cannot read properties of null (reading '" ++ k ++ "')"))
  | .undefined, k =>
    .error (.jsError
      ("Cannot read properties of undefined (reading '" ++ k ++ "')"))
  | .obj fields, k => .ok ((lookupKey fields k).getD .undefined)
  | _, _ => .ok .undefined

/-- The `ApiClientError` built in the non-success branch of
`makeRequest` (api.ts lines 146–153): `errorData` is the decoded error
body (`{}` when decoding failed).  The property accesses
`errorData.message`, `errorData.code`, `errorData.details` throw a
`TypeError` when the body decoded to JSON `null` (handled by the
surrounding try/catch); otherwise `message` and `code` fall back via
JavaScript `||` (so a present-but-falsy field is ignored) and `details`
is passed through unconditionally. -/
def mkHttpError (status : Nat) (statusText : String)
    (decoded : Option JsValue) : Except Thrown ApiClientError :=
  match getField (decoded.getD (.obj [])) "message" with
  | .error t => .error t
  | .ok msgField =>
    match getField (decoded.getD (.obj [])) "code" with
    | .error t => .error t
    | .ok codeField =>
      match getField (decoded.getD (.obj [])) "details" with
      | .error t => .error t
      | .ok detailsField =>
        .ok { message := if jsTruthy msgField then msgField
                         else .str (httpGenericMessage status statusText)
              status := status
              code := if jsTruthy codeField then codeField
                      else .str "HTTP_ERROR"
              details := detailsField }

/-- The `ApiClientError` built in the catch block of `makeRequest`
(api.ts lines 168–172) for a thrown value that is not already an
`ApiClientError`. -/
def mkNetworkError (t : Thrown) : ApiClientError :=
  { message := .str (getErrorMessage t)
    status := 0
    code := .str "NETWORK_ERROR"
    details := .undefined }

/-! ## `makeRequest` -/

/-- `response.ok`: status in the 2xx…  precisely 200–299. -/
def responseOk (status : Nat) : Bool :=
  200 ≤ status ∧ status ≤ 299

/-- The outcome of the `fetch` call under its abort guard: a response
(with its numeric status, status text, and the result of `.json()` —
`none` when body decoding rejects), a rejection with a thrown value, or
the timeout guard firing first, which aborts the fetch so that it rejects
with a `DOMException` "AbortError". -/
inductive FetchOutcome where
  | response : Nat → String → Option JsValue → FetchOutcome
  | reject : Thrown → FetchOutcome
  | timeout : FetchOutcome

/-- The network oracle: what `fetch` does given the full URL, the final
config, and the effective timeout the abort guard is armed with. -/
def FetchOracle := String → RequestConfig → Nat → FetchOutcome

/-- The catch block of `makeRequest` (api.ts lines 162–174): an
`ApiClientError` is re-thrown unchanged (and NOT routed through the error
interceptors again); anything else is wrapped with status 0 and code
`NETWORK_ERROR` and routed through the error-interceptor chain, whose
outcome is the call's rejection. -/
def catchBlock (errIts : List ErrInterceptor) (s : Store) (t : Thrown) :
    Store × Except Thrown JsValue :=
  match t with
  | .api e => (s, .error (.api e))
  | t =>
    let (s', t') := applyErrorInterceptors errIts (mkNetworkError t) s
    (s', .error t')

/-- `finalConfig.timeout || this.config.timeout`: JavaScript `||`, so a
per-call override of `0` also falls back to the client default. -/
def effectiveTimeout (override : Option Nat) (configTimeout : Nat) : Nat :=
  match override with
  | some n => if n = 0 then configTimeout else n
  | none => configTimeout

/-- The part of `ApiService.makeRequest` (api.ts lines 116–175) after the
`fetch` resolves, faithful to the `async`/`await` structure of the
source: the `fetch` and the success-path `response.json()` are `await`ed
inside `try`, so their rejections reach the catch block; but both
`return this.applyErrorInterceptors(apiError)` (line 154) and
`return this.applyResponseInterceptors(data)` (line 161) return a promise
WITHOUT `await`, so a rejection of either chain propagates to the caller
without passing through the catch block.  The error construction of the
non-success branch (lines 146–153) runs synchronously inside `try`, so a
`TypeError` thrown by `errorData.message` on a JSON-`null` body DOES take
the catch path. -/
def afterFetch (respIts : List RespInterceptor) (errIts : List ErrInterceptor)
    (s₁ : Store) (outcome : FetchOutcome) : Store × Except Thrown JsValue :=
  match outcome with
  | .timeout => catchBlock errIts s₁ (.jsError "The operation was aborted.")
  | .reject t => catchBlock errIts s₁ t
  | .response status statusText json =>
    if responseOk status then
      match json with
      | none => catchBlock errIts s₁ (.jsError "Unexpected end of JSON input")
      | some data => (s₁, applyResponseInterceptors respIts data)
    else
      match mkHttpError status statusText json with
      | .ok apiError =>
        let (s₂, t) := applyErrorInterceptors errIts apiError s₁
        (s₂, .error t)
      | .error t => catchBlock errIts s₁ t

/-- The body of `ApiService.makeRequest`: prepare the config (caller
options spread over the default headers, caller winning), run the
request-interceptor chain, resolve the URL and the effective timeout,
consult the network, and dispatch on the outcome (`afterFetch` holds the
part from line 137 on). -/
def makeRequest (config : ApiConfig) (reqIts : List ReqInterceptor)
    (respIts : List RespInterceptor) (errIts : List ErrInterceptor)
    (fetch : FetchOracle) (url : String) (cfg : RequestConfig) (s : Store) :
    Store × Except Thrown JsValue :=
  match applyRequestInterceptors reqIts s
      { cfg with headers := spreadHeaders config.headers cfg.headers } with
  | (s₁, .error t) => catchBlock errIts s₁ t
  | (s₁, .ok finalConfig) =>
    afterFetch respIts errIts s₁
      (fetch (buildUrl config.baseURL url finalConfig.baseURL) finalConfig
        (effectiveTimeout finalConfig.timeout config.timeout))

/-! ## HTTP verb wrappers -/

/-- A data argument of `post`/`put`/`patch`: absent, or a JavaScript
value. -/
def bodyOf (data : Option JsValue) (stringify : JsValue → String) :
    Option String :=
  match data with
  | none => none
  | some v => if jsTruthy v then some (stringify v) else none

/-- A minimal `JSON.stringify` for the modelled values (escaping `"` and
`\` in strings). -/
def jsonEscape (s : String) : String :=
  ⟨s.data.foldr (fun c acc =>
    if c = '"' then '\\' :: '"' :: acc
    else if c = '\\' then '\\' :: '\\' :: acc
    else c :: acc) []⟩

mutual

/-- Serialisation of the modelled values, `JSON.stringify`-style.
(`undefined` only arises for a falsy argument, which is never
serialised.) -/
def jsonStringify : JsValue → String
  | .undefined => "undefined"
  | .null => "null"
  | .bool b => if b then "true" else "false"
  | .num n => toString n
  | .str s => "\"" ++ jsonEscape s ++ "\""
  | .obj fields => "\x7b" ++ String.intercalate "," (jsonStringifyFields fields) ++ "\x7d"

/-- Serialisation of an object's fields, in order. -/
def jsonStringifyFields : List (String × JsValue) → List String
  | [] => []
  | (k, v) :: rest =>
    ("\"" ++ jsonEscape k ++ "\":" ++ jsonStringify v) :: jsonStringifyFields rest

end

/-- The config `post` (api.ts lines 182–192) hands to `makeRequest`:
`{ ...config, method: 'POST', body: data ? JSON.stringify(data) : undefined }`. -/
def postConfig (data : Option JsValue) (cfg : RequestConfig) : RequestConfig :=
  { cfg with method := some "POST", body := bodyOf data jsonStringify }

/-- The config `put` (api.ts lines 194–204) hands to `makeRequest`. -/
def putConfig (data : Option JsValue) (cfg : RequestConfig) : RequestConfig :=
  { cfg with method := some "PUT", body := bodyOf data jsonStringify }

/-- The config `patch` (api.ts lines 206–216) hands to `makeRequest`. -/
def patchConfig (data : Option JsValue) (cfg : RequestConfig) : RequestConfig :=
  { cfg with method := some "PATCH", body := bodyOf data jsonStringify }

/-! ## The default interceptors registered on `apiClient` -/

/-- The default request interceptor (api.ts lines 227–237): when
`localStorage.getItem('auth_token')` is truthy (a non-empty string), an
`Authorization: Bearer <token>` header is spread over the config's
headers; it never throws. -/
def authRequestInterceptor : ReqInterceptor where
  run s config :=
    match storeGet s.localStorage "auth_token" with
    | some token =>
      if token ≠ "" then
        (s, .ok { config with
          headers := spreadHeaders config.headers [("Authorization", "Bearer " ++ token)] })
      else (s, .ok config)
    | none => (s, .ok config)

/-- The default response interceptor (api.ts lines 239–245): a truthy
object owning a `data` key is replaced by that key's value; everything
else passes through unchanged. -/
def envelopeUnwrapInterceptor : RespInterceptor where
  run response :=
    match response with
    | .obj fields =>
      match lookupKey fields "data" with
      | some d => .ok d
      | none => .ok response
    | v => .ok v

/-- The default error interceptor (api.ts lines 247–262): on status 401
remove both credential keys and set `window.location.href` to `/login`;
when the debug flag is set, log the error; in every case re-throw the
same error. -/
def defaultErrorInterceptor (debug : Bool) : ErrInterceptor where
  run error s :=
    let s₁ :=
      if error.status = 401 then
        { s with
          localStorage := storeRemove (storeRemove s.localStorage "auth_token") "refresh_token"
          href := "/login" }
      else s
    let s₂ := if debug then { s₁ with errorLog := s₁.errorLog ++ [error] } else s₁
    (s₂, some (.api error))

/-! ## Environment configuration (`src/config/env.ts`) -/

/-- One character of `parseInt`'s leading-whitespace skip. -/
def isJsSpace (c : Char) : Bool :=
  c = ' ' ∨ c = '\t' ∨ c = '\n' ∨ c = '\r'

/-- Digits read by `parseInt(·, 10)`. -/
def takeDigits (l : List Char) : List Char :=
  match l with
  | c :: rest => if c.isDigit then c :: takeDigits rest else []
  | [] => []

/-- Value of a digit string (most significant first). -/
def digitsToNat (l : List Char) : Nat :=
  l.foldl (fun acc c => acc * 10 + (c.toNat - '0'.toNat)) 0

/-- `parseInt(s, 10)`: skip leading whitespace, read an optional sign,
then the longest prefix of decimal digits; `NaN` (here `none`) when no
digit follows.  Trailing non-digit characters are IGNORED, so
`parseInt("12px")` is `12`. -/
def parseIntJs (s : String) : Option Int :=
  let l := s.data.dropWhile isJsSpace
  let (neg, l') : Bool × List Char :=
    match l with
    | '-' :: rest => (true, rest)
    | '+' :: rest => (false, rest)
    | _ => (false, l)
  match takeDigits l' with
  | [] => none
  | ds => some (if neg then -(digitsToNat ds : Int) else (digitsToNat ds : Int))

/-- `getNumberEnvVar` (env.ts lines 26–34): an absent value with a stated
default yields the default; otherwise `parseInt(value || '0', 10)` is
taken and only a `NaN` result throws. -/
def getNumberEnvVar (value : Option String) (defaultValue : Option Int) :
    Except String Int :=
  match value, defaultValue with
  | none, some d => .ok d
  | _, _ =>
    let raw : String :=
      match value with
      | some s => if s = "" then "0" else s
      | none => "0"
    match parseIntJs raw with
    | none => .error "Environment variable must be a valid number"
    | some n => .ok n

/-- `env.API_TIMEOUT` (env.ts line 45): `getNumberEnvVar('VITE_API_TIMEOUT', 10000)`. -/
def apiTimeoutConfig (raw : Option String) : Except String Int :=
  getNumberEnvVar raw (some 10000)

/-! ## Concrete sample values used by witnesses and counterexamples -/

/-- The default client configuration with the env defaults
(`http://localhost:8000/api`, 10000 ms). -/
def sampleConfig : ApiConfig :=
  { baseURL := "http://localhost:8000/api", timeout := 10000,
    headers := defaultHeaders }

/-- A browser state with nothing stored. -/
def emptyStore : Store := { localStorage := [], href := "", errorLog := [] }

/-- A request interceptor that always throws `t`. -/
def throwReqInterceptor (t : Thrown) : ReqInterceptor where
  run s _ := (s, .error t)

/-- A response interceptor that always throws `t`. -/
def throwRespInterceptor (t : Thrown) : RespInterceptor where
  run _ := .error t

/-- A pure request interceptor: applies `f` to the config, never throws,
never touches browser state. -/
def pureReqInterceptor (f : RequestConfig → RequestConfig) : ReqInterceptor where
  run s c := (s, .ok (f c))

/-- An error interceptor that only records the error and returns. -/
def loggingErrInterceptor : ErrInterceptor where
  run e s := ({ s with errorLog := s.errorLog ++ [e] }, none)

/-! ## Helper lemmas -/

theorem str_ne {a b : String} (h : a ≠ b) : JsValue.str a ≠ JsValue.str b := by
  intro hh
  exact h (by injection hh)

theorem mkHttpError_ok {status : Nat} {statusText : String}
    {json : Option JsValue} {e : ApiClientError}
    (h : mkHttpError status statusText json = .ok e) :
    ∃ m c d, getField (json.getD (.obj [])) "message" = .ok m ∧
      getField (json.getD (.obj [])) "code" = .ok c ∧
      getField (json.getD (.obj [])) "details" = .ok d ∧
      e = { message := if jsTruthy m then m
                       else .str (httpGenericMessage status statusText)
            status := status
            code := if jsTruthy c then c else .str "HTTP_ERROR"
            details := d } := by
  unfold mkHttpError at h
  cases hm : getField (json.getD (.obj [])) "message" with
  | error t => rw [hm] at h; exact absurd h (by simp)
  | ok m =>
    rw [hm] at h
    cases hc : getField (json.getD (.obj [])) "code" with
    | error t => rw [hc] at h; exact absurd h (by simp)
    | ok c =>
      rw [hc] at h
      cases hd : getField (json.getD (.obj [])) "details" with
      | error t => rw [hd] at h; exact absurd h (by simp)
      | ok d =>
        rw [hd] at h
        refine ⟨m, c, d, rfl, rfl, rfl, ?_⟩
        injection h with h'
        exact h'.symm

theorem lstrip1_eq_all (l : List Char) (h : startsTwoSlash l = false) :
    lstripSlash1 l = lstripSlashAll l := by
  match l with
  | [] => rfl
  | c :: t =>
    by_cases hc : c = '/'
    · subst hc
      match t with
      | [] => rfl
      | c' :: t' =>
        have hc' : c' ≠ '/' := by
          simp [startsTwoSlash] at h; exact h
        simp [lstripSlash1, lstripSlashAll, hc']
    · simp [lstripSlash1, lstripSlashAll, hc]

theorem rstrip1_eq_all (l : List Char) (h : endsTwoSlash l = false) :
    rstripSlash1 l = rstripSlashAll l := by
  unfold rstripSlash1 rstripSlashAll
  rw [lstrip1_eq_all l.reverse h]

theorem storeGet_remove_self (ls : List (String × String)) (k : String) :
    storeGet (storeRemove ls k) k = none := by
  induction ls with
  | nil => rfl
  | cons p rest ih =>
    obtain ⟨a, b⟩ := p
    by_cases hp : a = k
    · simp [storeRemove, hp, ih]
    · simp [storeRemove, hp, storeGet, ih]

theorem storeGet_remove_ne (ls : List (String × String)) (k k' : String)
    (h : k ≠ k') : storeGet (storeRemove ls k') k = storeGet ls k := by
  induction ls with
  | nil => rfl
  | cons p rest ih =>
    obtain ⟨a, b⟩ := p
    by_cases hp : a = k'
    · subst hp
      have hk : a ≠ k := fun hh => h hh.symm
      simp [storeRemove, storeGet, hk, ih]
    · by_cases hk : a = k
      · subst hk
        simp [storeRemove, storeGet, hp]
      · simp [storeRemove, storeGet, hp, hk, ih]

theorem storeGet_append (xs ys : List (String × String)) (k : String) :
    storeGet (xs ++ ys) k = (storeGet xs k <|> storeGet ys k) := by
  induction xs with
  | nil => simp [storeGet]
  | cons p rest ih =>
    by_cases hp : p.1 = k
    · simp [storeGet, hp]
    · simp [storeGet, hp, ih]

theorem storeGet_map_override (a b : List (String × String)) (k : String) :
    storeGet (a.map (fun p => (p.1, (storeGet b p.1).getD p.2))) k
      = (storeGet a k).map (fun v => (storeGet b k).getD v) := by
  induction a with
  | nil => rfl
  | cons p rest ih =>
    by_cases hp : p.1 = k
    · simp [storeGet, hp]
    · simp [storeGet, hp, ih]

theorem storeGet_filter_keep (b : List (String × String)) (k : String)
    (p : String × String → Bool) (h : ∀ v, p (k, v) = true) :
    storeGet (b.filter p) k = storeGet b k := by
  induction b with
  | nil => rfl
  | cons q rest ih =>
    by_cases hq : q.1 = k
    · have : p q = true := by
        have := h q.2
        rwa [show (k, q.2) = q from by rw [← hq]] at this
      simp [List.filter, this, storeGet, hq]
    · cases hp : p q with
      | true => simp [List.filter, hp, storeGet, hq, ih]
      | false => simp [List.filter, hp, storeGet, hq, ih]

/-! ## C2 — URL resolution -/

/-- C2 counterexample: with a base URL ending in TWO slashes only one of
them is stripped, so the result does NOT have exactly one `'/'` between
base and path, contradicting "regardless of leading/trailing slashes on
either side". -/
theorem buildUrl_double_slash_counterexample :
    buildUrl "http://host/api//" "/users" none = "http://host/api//users" ∧
    buildUrlSpec "http://host/api//" "/users" none = "http://host/api/users" ∧
    buildUrl "http://host/api//" "/users" none
      ≠ buildUrlSpec "http://host/api//" "/users" none := by
  refine ⟨by decide, by decide, by decide⟩

/-- C2 (amended): a path starting with `"http"` is used verbatim and the
base is ignored; otherwise exactly ONE trailing slash of the effective
base and ONE leading slash of the path are stripped, which agrees with
full slash-normalisation (exactly one separating `'/'`) whenever the
effective base does not end in two slashes and the path does not begin
with two slashes. -/
theorem buildUrl_resolution :
    (∀ (configBase u : String) (ov : Option String),
       startsWithHttp u = true → buildUrl configBase u ov = u) ∧
    (∀ (configBase u : String) (ov : Option String),
       startsWithHttp u = false →
       buildUrl configBase u ov
         = ⟨rstripSlash1 (effectiveBase configBase ov).data ++
             '/' :: lstripSlash1 u.data⟩) ∧
    (∀ (configBase u : String) (ov : Option String),
       startsWithHttp u = false →
       endsTwoSlash (effectiveBase configBase ov).data = false →
       startsTwoSlash u.data = false →
       buildUrl configBase u ov = buildUrlSpec configBase u ov) := by
  refine ⟨?_, ?_, ?_⟩
  · intro configBase u ov h
    simp [buildUrl, h]
  · intro configBase u ov h
    simp [buildUrl, h]
  · intro configBase u ov h h2 h3
    simp [buildUrl, buildUrlSpec, h]
    rw [rstrip1_eq_all _ h2, lstrip1_eq_all _ h3]

/-- C2 witness: the spec's own example, base `http://host/api/` and path
`/users`, resolves to `http://host/api/users` with exactly one separating
slash. -/
theorem buildUrl_resolution_witness :
    buildUrl "http://host/api/" "/users" none = "http://host/api/users" :=
  (buildUrl_resolution.2.2 "http://host/api/" "/users" none (by decide)
    (by decide) (by decide)).trans (by decide)

/-! ## C9 — numeric environment variables -/

/-- C9 counterexample: `"12px"` is not a valid number, yet configuration
construction does not fail — `parseInt` keeps the leading digits and the
timeout becomes 12. -/
theorem getNumberEnvVar_trailing_garbage :
    apiTimeoutConfig (some "12px") = .ok 12 := rfl

/-- C9 (amended): a present numeric value fails process start only when
`parseInt` yields `NaN` (no leading integer after optional sign and
whitespace); a value with a parsable integer prefix is accepted as that
integer even with trailing garbage; an empty string is accepted as 0;
an absent value uses the stated default (10000 for the API timeout). -/
theorem getNumberEnvVar_spec :
    (∀ s : String, s ≠ "" → parseIntJs s = none → ∀ d,
       getNumberEnvVar (some s) d
         = .error "Environment variable must be a valid number") ∧
    (∀ (s : String) (n : Int), parseIntJs s = some n → ∀ d,
       getNumberEnvVar (some s) d = .ok n) ∧
    (∀ d : Int, getNumberEnvVar none (some d) = .ok d) ∧
    (∀ d, getNumberEnvVar (some "") d = .ok 0) ∧
    apiTimeoutConfig none = .ok 10000 := by
  refine ⟨?_, ?_, ?_, ?_, rfl⟩
  · intro s hs hp d
    cases d <;> simp [getNumberEnvVar, hs, hp]
  · intro s n hp d
    have hs : s ≠ "" := by
      intro h
      rw [h] at hp
      have h0 : parseIntJs "" = none := rfl
      rw [h0] at hp
      exact Option.noConfusion hp
    cases d <;> simp [getNumberEnvVar, hs, hp]
  · intro d
    rfl
  · intro d
    cases d <;> rfl

/-- C9 witness: the genuinely unparsable value `"abc"` fails process
start, and `"12px"` parses to 12. -/
theorem getNumberEnvVar_spec_witness :
    getNumberEnvVar (some "abc") (some 10000)
        = .error "Environment variable must be a valid number" ∧
    getNumberEnvVar (some "12px") (some 10000) = .ok 12 :=
  ⟨getNumberEnvVar_spec.1 "abc" (by decide) (by decide) (some 10000),
   getNumberEnvVar_spec.2.1 "12px" 12 (by decide) (some 10000)⟩

/-! ## C6 — envelope unwrapping -/

/-- C6: the default response interceptor returns the `data` field of any
object payload owning one, and returns every payload without a `data`
field unchanged. -/
theorem envelopeUnwrap_spec :
    (∀ (fields : List (String × JsValue)) (v : JsValue),
       lookupKey fields "data" = some v →
       envelopeUnwrapInterceptor.run (.obj fields) = .ok v) ∧
    (∀ r : JsValue, hasKey r "data" = false →
       envelopeUnwrapInterceptor.run r = .ok r) := by
  constructor
  · intro fields v h
    simp [envelopeUnwrapInterceptor, h]
  · intro r h
    match r with
    | .undefined => rfl
    | .null => rfl
    | .bool b => rfl
    | .num n => rfl
    | .str s => rfl
    | .obj fields =>
      cases hl : lookupKey fields "data" with
      | none => simp [envelopeUnwrapInterceptor, hl]
      | some v =>
        exfalso
        rw [show hasKey (.obj fields) "data"
              = (lookupKey fields "data").isSome from rfl, hl] at h
        exact Bool.noConfusion h

/-- C6 witness: an envelope `{data: 5, message: "ok"}` unwraps to `5`, and
a bare string payload passes through unchanged. -/
theorem envelopeUnwrap_spec_witness :
    envelopeUnwrapInterceptor.run
        (.obj [("data", .num 5), ("message", .str "ok")]) = .ok (.num 5) ∧
    envelopeUnwrapInterceptor.run (.str "raw") = .ok (.str "raw") :=
  ⟨envelopeUnwrap_spec.1 _ _ rfl, envelopeUnwrap_spec.2 _ rfl⟩

/-! ## C7 — the default 401 handler -/

/-- C7: every `ApiClientError` with status 401 reaching the default error
interceptor causes both `auth_token` and `refresh_token` to be removed
from storage and the location to be set to `/login`, and the same error
is re-thrown. -/
theorem default401_clears_session (e : ApiClientError) (s : Store)
    (debug : Bool) (h : e.status = 401) :
    storeGet ((defaultErrorInterceptor debug).run e s).1.localStorage
        "auth_token" = none ∧
    storeGet ((defaultErrorInterceptor debug).run e s).1.localStorage
        "refresh_token" = none ∧
    ((defaultErrorInterceptor debug).run e s).1.href = "/login" ∧
    ((defaultErrorInterceptor debug).run e s).2 = some (.api e) := by
  have hls : ((defaultErrorInterceptor debug).run e s).1.localStorage
      = storeRemove (storeRemove s.localStorage "auth_token") "refresh_token" := by
    cases debug <;> simp [defaultErrorInterceptor, h]
  have hhref : ((defaultErrorInterceptor debug).run e s).1.href = "/login" := by
    cases debug <;> simp [defaultErrorInterceptor, h]
  have hth : ((defaultErrorInterceptor debug).run e s).2 = some (.api e) := by
    cases debug <;> simp [defaultErrorInterceptor, h]
  refine ⟨?_, ?_, hhref, hth⟩
  · rw [hls, storeGet_remove_ne _ _ _ (by decide), storeGet_remove_self]
  · rw [hls, storeGet_remove_self]

/-- C7 witness: a concrete 401 error against a store holding both tokens
ends with both removed, the location at `/login`, and the error
re-thrown. -/
theorem default401_clears_session_witness :
    storeGet ((defaultErrorInterceptor true).run
        ⟨.str "Unauthorized", 401, .str "HTTP_ERROR", .undefined⟩
        ⟨[("auth_token", "t"), ("refresh_token", "r")], "/app", []⟩).1.localStorage
        "auth_token" = none ∧
    storeGet ((defaultErrorInterceptor true).run
        ⟨.str "Unauthorized", 401, .str "HTTP_ERROR", .undefined⟩
        ⟨[("auth_token", "t"), ("refresh_token", "r")], "/app", []⟩).1.localStorage
        "refresh_token" = none ∧
    ((defaultErrorInterceptor true).run
        ⟨.str "Unauthorized", 401, .str "HTTP_ERROR", .undefined⟩
        ⟨[("auth_token", "t"), ("refresh_token", "r")], "/app", []⟩).1.href
        = "/login" ∧
    ((defaultErrorInterceptor true).run
        ⟨.str "Unauthorized", 401, .str "HTTP_ERROR", .undefined⟩
        ⟨[("auth_token", "t"), ("refresh_token", "r")], "/app", []⟩).2
        = some (.api ⟨.str "Unauthorized", 401, .str "HTTP_ERROR", .undefined⟩) :=
  default401_clears_session _ _ true rfl

/-! ## C10 — request bodies of post/put/patch -/

/-- C10: `post`, `put` and `patch` attach a body exactly when the data
argument is truthy — the JSON serialisation of the data — and issue the
request with no body for any falsy data (`undefined`, `null`, `0`,
`false`, `""`). -/
theorem post_body_truthiness (data : Option JsValue) (cfg : RequestConfig) :
    (∀ v, data = some v → jsTruthy v = true →
       (postConfig data cfg).body = some (jsonStringify v) ∧
       (putConfig data cfg).body = some (jsonStringify v) ∧
       (patchConfig data cfg).body = some (jsonStringify v)) ∧
    (∀ v, data = some v → jsTruthy v = false →
       (postConfig data cfg).body = none ∧
       (putConfig data cfg).body = none ∧
       (patchConfig data cfg).body = none) ∧
    (data = none →
       (postConfig data cfg).body = none ∧
       (putConfig data cfg).body = none ∧
       (patchConfig data cfg).body = none) ∧
    (jsTruthy .undefined = false ∧ jsTruthy .null = false ∧
     jsTruthy (.num 0) = false ∧ jsTruthy (.bool false) = false ∧
     jsTruthy (.str "") = false) := by
  refine ⟨?_, ?_, ?_, by decide⟩
  · intro v hv ht
    subst hv
    simp [postConfig, putConfig, patchConfig, bodyOf, ht]
  · intro v hv ht
    subst hv
    simp [postConfig, putConfig, patchConfig, bodyOf, ht]
  · intro hv
    subst hv
    simp [postConfig, putConfig, patchConfig, bodyOf]

/-- C10 witness: a `post` with data `0` carries no body, while a `post`
with data `1` carries the body `"1"`. -/
theorem post_body_truthiness_witness :
    (postConfig (some (.num 0)) {}).body = none ∧
    (postConfig (some (.num 1)) {}).body = some "1" :=
  ⟨((post_body_truthiness (some (.num 0)) {}).2.1 _ rfl rfl).1,
   (((post_body_truthiness (some (.num 1)) {}).1 _ rfl rfl).1).trans rfl⟩

/-! ## C5 — the error-interceptor chain re-raises -/

/-- C5: when every registered error interceptor returns normally, the
chain runs them all, threading browser state in registration order, and
re-raises the same error at the end; every non-success call whose HTTP
error is constructed rejects with whatever the chain throws; and no call
with a non-success status ever resolves successfully — the pipeline
itself never converts an error into a success, not even when the error
body decodes to JSON `null` and the error construction itself throws. -/
theorem errorChain_reraises :
    (∀ (its : List ErrInterceptor) (e : ApiClientError) (s : Store),
       (∀ i ∈ its, ∀ s', (i.run e s').2 = none) →
       applyErrorInterceptors its e s
         = (its.foldl (fun st i => (i.run e st).1) s, .api e)) ∧
    (∀ (config : ApiConfig) (respIts : List RespInterceptor)
       (errIts : List ErrInterceptor) (url : String) (cfg : RequestConfig)
       (s : Store) (status : Nat) (statusText : String)
       (json : Option JsValue) (e : ApiClientError),
       responseOk status = false →
       mkHttpError status statusText json = .ok e →
       (makeRequest config [] respIts errIts
           (fun _ _ _ => .response status statusText json) url cfg s).2
         = .error (applyErrorInterceptors errIts e s).2) ∧
    (∀ (config : ApiConfig) (respIts : List RespInterceptor)
       (errIts : List ErrInterceptor) (url : String) (cfg : RequestConfig)
       (s : Store) (status : Nat) (statusText : String)
       (json : Option JsValue) (v : JsValue),
       responseOk status = false →
       (makeRequest config [] respIts errIts
           (fun _ _ _ => .response status statusText json) url cfg s).2
         ≠ .ok v) := by
  refine ⟨?_, ?_, ?_⟩
  · intro its
    induction its with
    | nil =>
      intro e s _
      simp [applyErrorInterceptors]
    | cons i rest ih =>
      intro e s h
      rcases hr : i.run e s with ⟨s', o⟩
      have h0 : o = none := by
        have hx := h i (by simp) s
        rw [hr] at hx
        exact hx
      subst h0
      simp only [applyErrorInterceptors, hr, List.foldl]
      exact ih e s' (fun j hj s'' => h j (by simp [hj]) s'')
  · intro config respIts errIts url cfg s status statusText json e h hmk
    simp only [makeRequest, applyRequestInterceptors, afterFetch, h, hmk]
    rcases happ : applyErrorInterceptors errIts e s with ⟨s₂, t⟩
    simp [h, hmk, happ]
  · intro config respIts errIts url cfg s status statusText json v h hEq
    simp only [makeRequest, applyRequestInterceptors, afterFetch, h] at hEq
    cases hmk : mkHttpError status statusText json with
    | ok e =>
      rcases happ : applyErrorInterceptors errIts e s with ⟨s₂, t⟩
      simp [hmk, happ] at hEq
    | error t =>
      cases t with
      | api e => simp [hmk, catchBlock] at hEq
      | jsError m =>
        rcases happ : applyErrorInterceptors errIts (mkNetworkError (.jsError m)) s
          with ⟨s₂, t'⟩
        simp [hmk, catchBlock, happ] at hEq
      | value w =>
        rcases happ : applyErrorInterceptors errIts (mkNetworkError (.value w)) s
          with ⟨s₂, t'⟩
        simp [hmk, catchBlock, happ] at hEq

/-- C5 witness: a purely observing error interceptor runs and the chain
still re-raises the same error; no success ever comes out of it. -/
theorem errorChain_reraises_witness :
    applyErrorInterceptors [loggingErrInterceptor]
        ⟨.str "boom", 500, .str "HTTP_ERROR", .undefined⟩ emptyStore
      = (⟨[], "", [⟨.str "boom", 500, .str "HTTP_ERROR", .undefined⟩]⟩,
         .api ⟨.str "boom", 500, .str "HTTP_ERROR", .undefined⟩) := by
  have h := errorChain_reraises.1 [loggingErrInterceptor]
    ⟨.str "boom", 500, .str "HTTP_ERROR", .undefined⟩ emptyStore
    (fun i hi s' => by
      simp at hi
      subst hi
      rfl)
  exact h.trans (by rfl)

/-! ## C8 — request interceptors in registration order -/

/-- C8: the initial config merges the caller's options over the client's
default headers with the caller winning on collision; the registered
request interceptors are applied sequentially in registration order, each
result feeding the next; and the network oracle is consulted only with
the final, fully-interpreted config. -/
theorem requestChain_order :
    (∀ (d c : List (String × String)) (k : String),
       storeGet (spreadHeaders d c) k = (storeGet c k <|> storeGet d k)) ∧
    (∀ (fs : List (RequestConfig → RequestConfig)) (s : Store) (c : RequestConfig),
       applyRequestInterceptors (fs.map pureReqInterceptor) s c
         = (s, .ok (fs.foldl (fun cfg f => f cfg) c))) ∧
    (∀ (config : ApiConfig) (fs : List (RequestConfig → RequestConfig))
       (respIts : List RespInterceptor) (errIts : List ErrInterceptor)
       (fetch : FetchOracle) (url : String) (cfg : RequestConfig) (s : Store),
       makeRequest config (fs.map pureReqInterceptor) respIts errIts fetch
           url cfg s
         = (let fc := fs.foldl (fun cg f => f cg)
              { cfg with headers := spreadHeaders config.headers cfg.headers };
            afterFetch respIts errIts s
              (fetch (buildUrl config.baseURL url fc.baseURL) fc
                (effectiveTimeout fc.timeout config.timeout)))) := by
  have hchain : ∀ (fs : List (RequestConfig → RequestConfig)) (s : Store)
      (c : RequestConfig),
      applyRequestInterceptors (fs.map pureReqInterceptor) s c
        = (s, .ok (fs.foldl (fun cfg f => f cfg) c)) := by
    intro fs
    induction fs with
    | nil => intro s c; rfl
    | cons f rest ih =>
      intro s c
      simp only [List.map, applyRequestInterceptors, pureReqInterceptor,
        List.foldl]
      exact ih s (f c)
  refine ⟨?_, hchain, ?_⟩
  · intro d c k
    unfold spreadHeaders
    rw [storeGet_append, storeGet_map_override]
    cases hd : storeGet d k with
    | none =>
      have hkeep :
          storeGet (c.filter (fun p => decide (storeGet d p.1 = none))) k
            = storeGet c k :=
        storeGet_filter_keep c k _ (fun v => by simp [hd])
      cases hc : storeGet c k <;> simp [hd, hc, hkeep]
    | some v =>
      cases hc : storeGet c k <;> simp [hd, hc]
  · intro config fs respIts errIts fetch url cfg s
    simp only [makeRequest]
    rw [hchain]

/-! ## C1 — HTTP-error construction -/

/-- C1 counterexample: a decoded error body whose `message` field is
PRESENT but empty (falsy) is ignored — the error carries the generic
`"HTTP 404: Not Found"` message, not the body's message; and a body that
decodes to JSON `null` makes the property access throw, so the call
rejects with the status-0 `NETWORK_ERROR` wrap instead of an error
carrying the server's status. -/
theorem httpError_empty_message_counterexample :
    hasKey (JsValue.obj [("message", JsValue.str "")]) "message" = true ∧
    mkHttpError 404 "Not Found" (some (.obj [("message", JsValue.str "")]))
      = .ok ⟨.str "HTTP 404: Not Found", 404, .str "HTTP_ERROR", .undefined⟩ ∧
    JsValue.str "HTTP 404: Not Found" ≠ JsValue.str "" ∧
    (makeRequest sampleConfig [] [] [defaultErrorInterceptor true]
        (fun _ _ _ => .response 404 "Not Found" (some .null)) "/users" {}
        emptyStore).2
      = .error (.api (mkNetworkError
          (.jsError "Cannot read properties of null (reading 'message')"))) ∧
    (mkNetworkError
        (.jsError "Cannot read properties of null (reading 'message')")).status
      = 0 :=
  ⟨rfl, rfl, str_ne (by decide), rfl, rfl⟩

/-- C1 (amended): for a non-success status whose decoded error body is
not JSON `null`, the error's status is the server's status; a body that
fails to decode is replaced by `{}`; `details` is taken from the decoded
body unconditionally; `message` and `code` are taken from the decoded
body when present AND truthy (JavaScript `||`), and otherwise fall back
to the generic `"HTTP <status>: <statusText>"` message and the
`HTTP_ERROR` tag; the call then rejects with exactly this error after
the default error-interceptor chain re-raises it.  A body decoding to
JSON `null`, however, makes `errorData.message` throw a `TypeError`, and
the call instead rejects with the status-0 `NETWORK_ERROR` wrap. -/
theorem httpError_construction (status : Nat) (statusText : String)
    (json : Option JsValue) (config : ApiConfig)
    (respIts : List RespInterceptor) (debug : Bool) (url : String)
    (cfg : RequestConfig) (s : Store) (h : responseOk status = false) :
    (∀ e, mkHttpError status statusText json = .ok e → e.status = status) ∧
    mkHttpError status statusText none
      = mkHttpError status statusText (some (.obj [])) ∧
    (∀ e, mkHttpError status statusText json = .ok e →
       getField (json.getD (.obj [])) "details" = .ok e.details) ∧
    (∀ e m, mkHttpError status statusText json = .ok e →
       getField (json.getD (.obj [])) "message" = .ok m →
       jsTruthy m = true → e.message = m) ∧
    (∀ e m, mkHttpError status statusText json = .ok e →
       getField (json.getD (.obj [])) "message" = .ok m →
       jsTruthy m = false →
       e.message = .str (httpGenericMessage status statusText)) ∧
    (∀ e c, mkHttpError status statusText json = .ok e →
       getField (json.getD (.obj [])) "code" = .ok c →
       jsTruthy c = true → e.code = c) ∧
    (∀ e c, mkHttpError status statusText json = .ok e →
       getField (json.getD (.obj [])) "code" = .ok c →
       jsTruthy c = false → e.code = .str "HTTP_ERROR") ∧
    (∀ e, mkHttpError status statusText json = .ok e →
       (makeRequest config [] respIts [defaultErrorInterceptor debug]
           (fun _ _ _ => .response status statusText json) url cfg s).2
         = .error (.api e)) ∧
    mkHttpError status statusText (some .null)
      = .error (.jsError "Cannot read properties of null (reading 'message')") ∧
    ((makeRequest config [] respIts [defaultErrorInterceptor debug]
         (fun _ _ _ => .response status statusText (some .null)) url cfg s).2
       = .error (.api (mkNetworkError
           (.jsError "Cannot read properties of null (reading 'message')")))) := by
  have hnull : mkHttpError status statusText (some JsValue.null)
      = .error (.jsError "Cannot read properties of null (reading 'message')") :=
    rfl
  refine ⟨?_, rfl, ?_, ?_, ?_, ?_, ?_, ?_, hnull, ?_⟩
  · intro e he
    obtain ⟨m, c, d, hm, hc, hd, hE⟩ := mkHttpError_ok he
    rw [hE]
  · intro e he
    obtain ⟨m, c, d, hm, hc, hd, hE⟩ := mkHttpError_ok he
    rw [hE]
    exact hd
  · intro e m he hm ht
    obtain ⟨m', c, d, hm', hc, hd, hE⟩ := mkHttpError_ok he
    rw [hm'] at hm
    injection hm with hmm
    subst hmm
    rw [hE]
    simp [ht]
  · intro e m he hm ht
    obtain ⟨m', c, d, hm', hc, hd, hE⟩ := mkHttpError_ok he
    rw [hm'] at hm
    injection hm with hmm
    subst hmm
    rw [hE]
    simp [ht]
  · intro e c he hc ht
    obtain ⟨m, c', d, hm, hc', hd, hE⟩ := mkHttpError_ok he
    rw [hc'] at hc
    injection hc with hcc
    subst hcc
    rw [hE]
    simp [ht]
  · intro e c he hc ht
    obtain ⟨m, c', d, hm, hc', hd, hE⟩ := mkHttpError_ok he
    rw [hc'] at hc
    injection hc with hcc
    subst hcc
    rw [hE]
    simp [ht]
  · intro e he
    simp only [makeRequest, applyRequestInterceptors, afterFetch, h, he]
    simp [h, he, applyErrorInterceptors, defaultErrorInterceptor]
  · simp only [makeRequest, applyRequestInterceptors, afterFetch, h, hnull]
    simp [h, hnull, catchBlock, applyErrorInterceptors, defaultErrorInterceptor]

/-- C1 witness: a 404 whose body carries a truthy message keeps it (while
the absent `code` falls back to `HTTP_ERROR`), and the call rejects with
that error. -/
theorem httpError_construction_witness :
    mkHttpError 404 "Not Found" (some (.obj [("message", .str "Nope")]))
      = .ok ⟨.str "Nope", 404, .str "HTTP_ERROR", .undefined⟩ ∧
    (⟨.str "Nope", 404, .str "HTTP_ERROR", .undefined⟩ : ApiClientError).message
      = .str "Nope" ∧
    (⟨.str "Nope", 404, .str "HTTP_ERROR", .undefined⟩ : ApiClientError).code
      = .str "HTTP_ERROR" ∧
    (makeRequest sampleConfig [] [] [defaultErrorInterceptor true]
        (fun _ _ _ => .response 404 "Not Found"
          (some (.obj [("message", .str "Nope")]))) "/users" {} emptyStore).2
      = .error (.api ⟨.str "Nope", 404, .str "HTTP_ERROR", .undefined⟩) :=
  ⟨rfl,
   (httpError_construction 404 "Not Found" (some (.obj [("message", .str "Nope")]))
      sampleConfig [] true "/users" {} emptyStore (by decide)).2.2.2.1
      ⟨.str "Nope", 404, .str "HTTP_ERROR", .undefined⟩ (.str "Nope") rfl rfl rfl,
   (httpError_construction 404 "Not Found" (some (.obj [("message", .str "Nope")]))
      sampleConfig [] true "/users" {} emptyStore (by decide)).2.2.2.2.2.2.1
      ⟨.str "Nope", 404, .str "HTTP_ERROR", .undefined⟩ .undefined rfl rfl rfl,
   (httpError_construction 404 "Not Found" (some (.obj [("message", .str "Nope")]))
      sampleConfig [] true "/users" {} emptyStore (by decide)).2.2.2.2.2.2.2.1
      ⟨.str "Nope", 404, .str "HTTP_ERROR", .undefined⟩ rfl⟩

/-! ## C3 — timeout handling -/

/-- C3 counterexample: a timed-out call produces a `ClientError` whose
code tag IS the generic `NETWORK_ERROR` — there is no timeout-specific
tag distinct from it. -/
theorem timeout_generic_code_counterexample :
    (makeRequest sampleConfig [] [] [defaultErrorInterceptor true]
        (fun _ _ _ => .timeout) "/users" {} emptyStore).2
      = .error (.api (mkNetworkError (.jsError "The operation was aborted."))) ∧
    (mkNetworkError (.jsError "The operation was aborted.")).status = 0 ∧
    (mkNetworkError (.jsError "The operation was aborted.")).code
      = .str "NETWORK_ERROR" :=
  ⟨rfl, rfl, rfl⟩

/-- C3 (amended): when the abort guard fires first, the call rejects
with a network-level `ClientError` of status 0 carrying the SAME generic
`NETWORK_ERROR` code tag as any other network failure (no
timeout-specific tag exists). -/
theorem timeout_error_construction (config : ApiConfig)
    (reqIts : List ReqInterceptor) (respIts : List RespInterceptor)
    (debug : Bool) (url : String) (cfg : RequestConfig) (s s₁ : Store)
    (fc : RequestConfig)
    (h : applyRequestInterceptors reqIts s
        { cfg with headers := spreadHeaders config.headers cfg.headers }
        = (s₁, .ok fc)) :
    (makeRequest config reqIts respIts [defaultErrorInterceptor debug]
        (fun _ _ _ => .timeout) url cfg s).2
      = .error (.api (mkNetworkError (.jsError "The operation was aborted."))) ∧
    (mkNetworkError (.jsError "The operation was aborted.")).status = 0 ∧
    (mkNetworkError (.jsError "The operation was aborted.")).code
      = .str "NETWORK_ERROR" := by
  refine ⟨?_, rfl, rfl⟩
  simp only [makeRequest]
  rw [h]
  simp [afterFetch, catchBlock, applyErrorInterceptors, defaultErrorInterceptor]

/-- C3 witness: the amended statement at a concrete call (no custom
request interceptors, debug logging on). -/
theorem timeout_error_construction_witness :
    (makeRequest sampleConfig [] [] [defaultErrorInterceptor true]
        (fun _ _ _ => .timeout) "/health" {} emptyStore).2
      = .error (.api (mkNetworkError (.jsError "The operation was aborted."))) ∧
    (mkNetworkError (.jsError "The operation was aborted.")).status = 0 ∧
    (mkNetworkError (.jsError "The operation was aborted.")).code
      = .str "NETWORK_ERROR" :=
  timeout_error_construction sampleConfig [] [] true "/health" {} emptyStore
    emptyStore _ rfl

/-! ## C4 — wrapping of exceptions outside the HTTP-status branch -/

/-- C4 counterexample: an exception thrown by a RESPONSE interceptor —
raised during `makeRequest`, outside the non-success HTTP-status branch
and not a `ClientError` — reaches the caller raw, NOT wrapped into a
`ClientError` (the interceptor chain's promise is returned without
`await`, so the catch block never sees its rejection). -/
theorem respThrow_unwrapped_counterexample :
    (makeRequest sampleConfig [] [throwRespInterceptor (.value (.str "boom"))]
        [defaultErrorInterceptor true]
        (fun _ _ _ => .response 200 "OK" (some .null)) "/users" {}
        emptyStore).2
      = .error (.value (.str "boom")) ∧
    (makeRequest sampleConfig [] [throwRespInterceptor (.value (.str "boom"))]
        [defaultErrorInterceptor true]
        (fun _ _ _ => .response 200 "OK" (some .null)) "/users" {}
        emptyStore).2
      ≠ .error (.api (mkNetworkError (.value (.str "boom")))) := by
  constructor
  · rfl
  · intro h
    have h' : (Except.error (Thrown.value (.str "boom")) : Except Thrown JsValue)
        = .error (.api (mkNetworkError (.value (.str "boom")))) := h
    injection h' with h2
    exact Thrown.noConfusion h2

/-- C4 (amended): an exception raised in any AWAITED step of
`makeRequest` — a request interceptor, the network call itself, or the
success-path body parse — that is not already a `ClientError` is wrapped
into one with status 0 and the `NETWORK_ERROR` tag, routed through the
error-interceptor chain and re-raised; one that already is a
`ClientError` is re-raised unchanged without touching the chain; but an
exception thrown by a response interceptor propagates to the caller
unwrapped. -/
theorem catch_wrapping (config : ApiConfig) (respIts : List RespInterceptor)
    (debug : Bool) (url : String) (cfg : RequestConfig) (s : Store) :
    (∀ m : String,
       (makeRequest config [] respIts [defaultErrorInterceptor debug]
           (fun _ _ _ => .reject (.jsError m)) url cfg s).2
         = .error (.api (mkNetworkError (.jsError m)))) ∧
    (∀ v : JsValue,
       (makeRequest config [] respIts [defaultErrorInterceptor debug]
           (fun _ _ _ => .reject (.value v)) url cfg s).2
         = .error (.api (mkNetworkError (.value v)))) ∧
    (∀ e : ApiClientError,
       makeRequest config [] respIts [defaultErrorInterceptor debug]
           (fun _ _ _ => .reject (.api e)) url cfg s
         = (s, .error (.api e))) ∧
    ((makeRequest config [] respIts [defaultErrorInterceptor debug]
         (fun _ _ _ => .response 200 "OK" none) url cfg s).2
       = .error (.api (mkNetworkError
           (.jsError "Unexpected end of JSON input")))) ∧
    (∀ m : String,
       (makeRequest config [throwReqInterceptor (.jsError m)] respIts
           [defaultErrorInterceptor debug]
           (fun _ _ _ => .reject (.jsError "unreached")) url cfg s).2
         = .error (.api (mkNetworkError (.jsError m)))) ∧
    (∀ t : Thrown,
       makeRequest config [] [throwRespInterceptor t]
           [defaultErrorInterceptor debug]
           (fun _ _ _ => .response 200 "OK" (some .null)) url cfg s
         = (s, .error t)) ∧
    (∀ t : Thrown, (mkNetworkError t).status = 0 ∧
       (mkNetworkError t).code = .str "NETWORK_ERROR") := by
  refine ⟨?_, ?_, ?_, ?_, ?_, ?_, fun t => ⟨rfl, rfl⟩⟩
  · intro m
    simp [makeRequest, applyRequestInterceptors, afterFetch, catchBlock,
      applyErrorInterceptors, defaultErrorInterceptor]
  · intro v
    simp [makeRequest, applyRequestInterceptors, afterFetch, catchBlock,
      applyErrorInterceptors, defaultErrorInterceptor]
  · intro e
    simp [makeRequest, applyRequestInterceptors, afterFetch, catchBlock]
  · simp +decide [makeRequest, applyRequestInterceptors, afterFetch,
      catchBlock, applyErrorInterceptors, defaultErrorInterceptor, responseOk]
  · intro m
    simp [makeRequest, applyRequestInterceptors, throwReqInterceptor,
      catchBlock, applyErrorInterceptors, defaultErrorInterceptor]
  · intro t
    simp +decide [makeRequest, applyRequestInterceptors, afterFetch,
      applyResponseInterceptors, throwRespInterceptor, responseOk]

end ApiSpec
